import Mathlib

/-!
Verification of the openclaw-railway-template wrapper server
(`src/server.js`, both bundled variants, plus `src/observability.js`).

The development shallowly embeds the security- and lifecycle-critical parts
of the wrapper: the tar path filter used by backup import, the setup
authentication and rate-limiting logic, the secret-redaction transform, the
route table of the administration surface, the backup-import control flow,
the gateway supervisor (start coordination and restart), and the state
directory resolution.  Each definition is translated directly from the
JavaScript source; theorems at the end settle the specification claims.
-/

namespace OpenClawWrapper

/-! ## String primitives

JS string operations are modelled on the character list underlying the
Lean string, so that every definition evaluates by kernel reduction. -/

/-- JS `s.startsWith(pre)`. -/
def strStartsWith (s pre : String) : Bool := pre.data.isPrefixOf s.data

/-- JS string equality `===`. -/
def strEq (a b : String) : Bool := a.data == b.data

/-- JS `s.split(sep)` for a one-character separator:
`splitOnSep sep "".data = [[]]`, and separators delimit (possibly empty)
groups. -/
def splitOnSep (sep : Char) : List Char → List (List Char)
  | [] => [[]]
  | c :: rest =>
      let r := splitOnSep sep rest
      if c = sep then [] :: r
      else
        match r with
        | [] => [[c]]
        | g :: gs => (c :: g) :: gs

/-! ## Tar path safety (server.js, looksSafeTarPath)

`looksSafeTarPath(p)` from server.js:
rejects empty paths, paths starting with "/" or "\\", Windows
drive-letter paths matching the regex [A-Za-z]:[\\/], and any path whose
"/"-separated segments contain "..". -/

/-- Embeds the JS regex test `/^[A-Za-z]:[\\/]/.test(p)`: first char an ASCII
letter, second char a colon, third char a backslash or slash. -/
def isDriveLetterPath (p : String) : Bool :=
  match p.data with
  | a :: b :: c :: _ => a.isAlpha && b = ':' && (c = '\\' || c = '/')
  | _ => false

/-- Embeds `looksSafeTarPath` from server.js (identical in both variants):
the `p.split("/").includes("..")` check is `splitOnSep '/'` followed by a
membership test for the two-character segment "..". -/
def looksSafeTarPath (p : String) : Bool :=
  if p.data.isEmpty then false
  else if strStartsWith p "/" || strStartsWith p "\\" then false
  else if isDriveLetterPath p then false
  else if (splitOnSep '/' p.data).contains ['.', '.'] then false
  else true

/-- The `tar.x` filter in `app.post("/setup/import")` keeps exactly the
entries for which `looksSafeTarPath` returns true: only those are written
to disk; rejected entries are skipped while the rest are still extracted. -/
def tarExtractedEntries (entries : List String) : List String :=
  entries.filter looksSafeTarPath

/-! ## Basic auth password extraction (server.js, requireSetupAuth)

The JS code does `decoded.indexOf(":")` and, if found at `idx`, takes
`decoded.slice(idx + 1)`, otherwise the empty string.  On a character list
this is exactly: drop everything up to and including the first ':'. -/

/-- Characters after the first ':' of the list; `[]` when no ':' occurs.
Mirrors `idx >= 0 ? decoded.slice(idx + 1) : ""` with `idx = indexOf(":")`. -/
def charsAfterFirstColon : List Char → List Char
  | [] => []
  | c :: rest => if c = ':' then rest else charsAfterFirstColon rest

/-- Password extracted from the base64-decoded Basic credential. -/
def basicAuthPassword (decoded : String) : String :=
  String.mk (charsAfterFirstColon decoded.data)

/-! ## Rate limiting (server.js, RATE_LIMIT_CONFIG / checkRateLimit /
recordAuthFailure / recordAuthSuccess / checkRequestRateLimit)

Timestamps are modelled as natural numbers of milliseconds (Date.now()). -/

/-- RATE_LIMIT_CONFIG.maxAuthAttempts. -/
def maxAuthAttempts : Nat := 5
/-- RATE_LIMIT_CONFIG.authLockoutMs (15 minutes). -/
def authLockoutMs : Nat := 15 * 60 * 1000
/-- RATE_LIMIT_CONFIG.authWindowMs (5 minutes). -/
def authWindowMs : Nat := 5 * 60 * 1000
/-- RATE_LIMIT_CONFIG.maxRequestsPerMinute. -/
def maxRequestsPerMinute : Nat := 30
/-- RATE_LIMIT_CONFIG.requestWindowMs (1 minute). -/
def requestWindowMs : Nat := 60 * 1000

/-- One value of `rateLimitState.authAttempts` (per client address). -/
structure AuthAttemptState where
  attempts : Nat
  lastAttempt : Nat
  lockedUntil : Option Nat
deriving Repr, DecidableEq

/-- Embeds `checkRateLimit(ip)`: returns `some retryAfterMs` when the client
is locked out (`now < lockedUntil`), `none` when the request is allowed.
`none` as input state models an absent map entry. -/
def checkRateLimit (now : Nat) (st : Option AuthAttemptState) : Option Nat :=
  match st with
  | some s =>
      match s.lockedUntil with
      | some l => if now < l then some (l - now) else none
      | none => none
  | none => none

/-- Embeds `recordAuthFailure(ip)`: default entry {attempts:0, lastAttempt:0},
reset of the counter when the previous attempt fell outside the window,
increment, and lockout once the counter reaches the threshold. -/
def recordAuthFailure (now : Nat) (st : Option AuthAttemptState) :
    AuthAttemptState :=
  let s0 := st.getD { attempts := 0, lastAttempt := 0, lockedUntil := none }
  let s1 := if now - s0.lastAttempt > authWindowMs then
      { s0 with attempts := 0 } else s0
  let s2 := { s1 with attempts := s1.attempts + 1, lastAttempt := now }
  if s2.attempts ≥ maxAuthAttempts then
    { s2 with lockedUntil := some (now + authLockoutMs) }
  else s2

/-- Embeds `recordAuthSuccess(ip)`: the map entry is deleted outright. -/
def recordAuthSuccess (_st : Option AuthAttemptState) :
    Option AuthAttemptState := none

/-- One value of `rateLimitState.requestCounts` (per client address). -/
structure RequestWindowState where
  requests : List Nat
  windowStart : Nat
deriving Repr, DecidableEq

/-- Embeds `checkRequestRateLimit(ip)`: fresh window when absent or stale,
prune of timestamps outside the window, admission iff the pruned count is
below the ceiling; admitted requests append `now`. Returns
(`some retryAfterMs` when blocked, updated map entry). -/
def checkRequestRateLimit (now : Nat) (st : Option RequestWindowState) :
    Option Nat × Option RequestWindowState :=
  let s0 : RequestWindowState := match st with
    | none => { requests := [], windowStart := now }
    | some s =>
        if now - s.windowStart > requestWindowMs then
          { requests := [], windowStart := now }
        else s
  let s1 := { s0 with
    requests := s0.requests.filter (fun t => now - t < requestWindowMs) }
  if s1.requests.length ≥ maxRequestsPerMinute then
    (some (requestWindowMs - (now - s1.requests.headD 0)), some s1)
  else
    (none, some { s1 with requests := s1.requests ++ [now] })

/-! ## Setup authentication gate (server.js, requireSetupAuth)

The middleware, in source order: auth-lockout check (429), request-volume
check (429), SETUP_PASSWORD-unset check (500), Basic header parse (401
challenge when absent or malformed), password comparison (401 + failure
record on mismatch, entry deletion + next() on match).  The base64 decoding
of the header is abstracted away: `basicCredential` is the decoded
`user:password` value when a Basic header with a payload is present. -/

inductive SetupAuthResult where
  /-- 429 from the auth-lockout check, with Retry-After milliseconds. -/
  | authRateLimited (retryAfterMs : Nat)
  /-- 429 from the request-volume check, with Retry-After milliseconds. -/
  | requestRateLimited (retryAfterMs : Nat)
  /-- 500: SETUP_PASSWORD is not set. -/
  | passwordUnset
  /-- 401 with WWW-Authenticate challenge: missing/malformed header. -/
  | challenge
  /-- 401: wrong password. -/
  | invalidPassword
  /-- next(): the administration handler runs. -/
  | authorized
deriving Repr, DecidableEq

/-- The two per-client rate-limit map entries for one client address. -/
structure ClientState where
  auth : Option AuthAttemptState
  reqs : Option RequestWindowState
deriving Repr, DecidableEq

def freshClient : ClientState := { auth := none, reqs := none }

/-- Embeds `requireSetupAuth(req, res, next)` for one client address. -/
def requireSetupAuth (now : Nat) (setupPassword : Option String)
    (basicCredential : Option String) (cs : ClientState) :
    SetupAuthResult × ClientState :=
  match checkRateLimit now cs.auth with
  | some retry => (.authRateLimited retry, cs)
  | none =>
      match checkRequestRateLimit now cs.reqs with
      | (some retry, reqs2) => (.requestRateLimited retry, { cs with reqs := reqs2 })
      | (none, reqs2) =>
          let cs2 : ClientState := { cs with reqs := reqs2 }
          match setupPassword with
          | none => (.passwordUnset, cs2)
          | some pw =>
              match basicCredential with
              | none => (.challenge, cs2)
              | some decoded =>
                  if basicAuthPassword decoded ≠ pw then
                    (.invalidPassword,
                     { cs2 with auth := some (recordAuthFailure now cs2.auth) })
                  else
                    (.authorized, { cs2 with auth := recordAuthSuccess cs2.auth })

/-! ## Start coordination (server.js, ensureGatewayRunning / startGateway)

Node's event loop runs each `ensureGatewayRunning()` call synchronously up
to its first await.  That synchronous turn covers: the `isConfigured()` and
`gatewayProc` checks, the `gatewayStarting` null-check, and — because the
async IIFE body runs synchronously until its first await and `startGateway`
only awaits after `childProcess.spawn` — the spawn itself and the
assignment of `gatewayProc` and `gatewayStarting`.  Between turns, the
child's `exit`/`error` callbacks may clear `gatewayProc`, and the in-flight
start attempt may complete (readiness or timeout), whose `.finally` clears
`gatewayStarting`.  The model below replays an arbitrary interleaving of
call turns and proc-exit callbacks before the start attempt completes. -/

/-- Supervisor state visible to one synchronous event-loop turn.
`gatewayStarting` holds the identity of the in-flight start attempt. -/
structure SupState where
  configured : Bool
  gatewayProc : Bool
  gatewayStarting : Option Nat
  spawnCount : Nat
  nextAttemptId : Nat
deriving Repr, DecidableEq

/-- What one `ensureGatewayRunning()` call does in its synchronous turn. -/
inductive EnsureCallRes where
  /-- returned `{ok:false, reason:"not configured"}` without starting. -/
  | notConfigured
  /-- returned `{ok:true}` immediately because `gatewayProc` was set. -/
  | alreadyRunning
  /-- awaits the outcome of start attempt `id` (spawning it if fresh). -/
  | awaits (id : Nat)
deriving Repr, DecidableEq

/-- Synchronous turn of `ensureGatewayRunning()`: the configured and
`gatewayProc` checks, then either joining the in-flight `gatewayStarting`
or creating it (which synchronously spawns the child, setting
`gatewayProc` and incrementing the spawn counter). -/
def ensureCallTurn (s : SupState) : EnsureCallRes × SupState :=
  if s.configured = false then (.notConfigured, s)
  else if s.gatewayProc then (.alreadyRunning, s)
  else
    match s.gatewayStarting with
    | some id => (.awaits id, s)
    | none =>
        (.awaits s.nextAttemptId,
         { s with gatewayProc := true,
                  gatewayStarting := some s.nextAttemptId,
                  spawnCount := s.spawnCount + 1,
                  nextAttemptId := s.nextAttemptId + 1 })

/-- The child's `exit`/`error` callback: `gatewayProc = null`. -/
def procExitTurn (s : SupState) : SupState := { s with gatewayProc := false }

/-- Completion of the in-flight start attempt with outcome `ok` (readiness
or `Gateway did not become ready in time`): the `.finally` clears
`gatewayStarting` regardless of the outcome. -/
def startCompleteTurn (_ok : Bool) (s : SupState) : SupState :=
  { s with gatewayStarting := none }

/-- Event-loop turns that can occur while a start attempt is in flight. -/
inductive SupEvent where
  | call
  | procExit
deriving Repr, DecidableEq

/-- Replay a list of turns, collecting each call's synchronous result. -/
def runSupEvents : List SupEvent → SupState → SupState × List EnsureCallRes
  | [], s => (s, [])
  | .call :: evs, s =>
      let (r, s2) := ensureCallTurn s
      let (s3, rs) := runSupEvents evs s2
      (s3, r :: rs)
  | .procExit :: evs, s =>
      runSupEvents evs (procExitTurn s)

/-- Initial supervisor state: configured, no process, no start in flight. -/
def supInit : SupState :=
  { configured := true, gatewayProc := false, gatewayStarting := none,
    spawnCount := 0, nextAttemptId := 0 }

/-! ## Gateway restart (server.js variant 2, restartGateway +
observability.js trackGatewayRestart; console/run "gateway.restart")

`restartGateway()`: when a process handle exists — SIGTERM (exceptions
swallowed), `await sleep(750)`, unconditional `gatewayProc = null`,
`trackGatewayRestart()` (which does `metrics.gateway.restartCount++`) —
then `return ensureGatewayRunning()`.  The readiness poll outcome is an
environment oracle `ready`. -/

structure GwState where
  gatewayProc : Bool
  restartCount : Nat
deriving Repr, DecidableEq

inductive GwAction where
  | sigterm
  | sleepGrace750
  | clearHandle
  | trackRestart
  | ensureRunningCall
deriving Repr, DecidableEq

/-- The `if (gatewayProc)` teardown block of `restartGateway()`. -/
def restartTeardown (s : GwState) : GwState × List GwAction :=
  if s.gatewayProc then
    ({ gatewayProc := false, restartCount := s.restartCount + 1 },
     [.sigterm, .sleepGrace750, .clearHandle, .trackRestart])
  else (s, [])

/-- Embeds `ensureGatewayRunning()` as a state transformer: `.ok b` models a
resolved `{ok: b}`, `.error` models the rejection thrown when the spawned
gateway does not become ready within the 20s window (the handle is left
set in that case — the process may still be alive). -/
def ensureRunningModel (configured ready : Bool) (s : GwState) :
    GwState × Except String Bool :=
  if configured = false then (s, .ok false)
  else if s.gatewayProc then (s, .ok true)
  else if ready then ({ s with gatewayProc := true }, .ok true)
  else ({ s with gatewayProc := true },
        .error "Gateway did not become ready in time")

/-- Embeds `restartGateway()` (variant 2): teardown, then ensureRunning. -/
def restartGatewayModel (configured ready : Bool) (s : GwState) :
    GwState × List GwAction × Except String Bool :=
  let (s1, acts) := restartTeardown s
  let (s2, r) := ensureRunningModel configured ready s1
  (s2, acts ++ [.ensureRunningCall], r)

/-- Embeds the `cmd === "gateway.restart"` branch of
`app.post("/setup/api/console/run")`: `await restartGateway()` then
`res.json({ok:true,...})`; a rejection is caught and answered 500 with
`{ok:false}`.  Result: (new state, HTTP status, ok flag). -/
def consoleGatewayRestart (configured ready : Bool) (s : GwState) :
    GwState × Nat × Bool :=
  let (s2, _, r) := restartGatewayModel configured ready s
  match r with
  | .ok _ => (s2, 200, true)
  | .error _ => (s2, 500, false)

/-! ## State directory resolution (server.js, findWritableStateDir)

Both variants probe, in source order: the env-declared directory (when set
and usable), then `/data/.openclaw`, `$HOME/.openclaw`, tmpdir `.openclaw`,
`process.cwd()/.openclaw`, then the process-unique tmpdir fallback
`openclaw-<pid>`; if even that mkdir fails, the first candidate
`/data/.openclaw` is returned to fail later with a clear error. -/

structure DirProbeEnv where
  /-- OPENCLAW_STATE_DIR / CLAWDBOT_STATE_DIR after trim and shell
  expansion; `none` when unset or blank. -/
  envStateDir : Option String
  /-- testDirUsable succeeds (mkdir + write + subdir probes). -/
  usable : String → Bool
  homedir : String
  tmpdir : String
  cwd : String
  pid : Nat
  /-- the bare `fs.mkdirSync` of the unique fallback succeeds. -/
  fallbackMkdirOk : Bool

/-- The `candidates` array of `findWritableStateDir` (both variants list
the same four paths in this order). -/
def stateDirCandidates (e : DirProbeEnv) : List String :=
  ["/data/.openclaw",
   e.homedir ++ "/.openclaw",
   e.tmpdir ++ "/.openclaw",
   e.cwd ++ "/.openclaw"]

/-- The process-unique tmpdir fallback path. -/
def uniqueTmpFallback (e : DirProbeEnv) : String :=
  e.tmpdir ++ "/openclaw-" ++ toString e.pid

/-- Embeds `findWritableStateDir()`. -/
def findWritableStateDir (e : DirProbeEnv) : String :=
  match e.envStateDir with
  | some d =>
      if e.usable d then d
      else
        match (stateDirCandidates e).find? e.usable with
        | some c => c
        | none =>
            if e.fallbackMkdirOk then uniqueTmpFallback e
            else "/data/.openclaw"
  | none =>
      match (stateDirCandidates e).find? e.usable with
      | some c => c
      | none =>
          if e.fallbackMkdirOk then uniqueTmpFallback e
          else "/data/.openclaw"

/-! ## Path resolution and isUnderDir (server.js)

`isUnderDir(p, root)` does `path.resolve` on both arguments and checks
`abs === r || abs.startsWith(r + path.sep)`.  POSIX `path.resolve` is
modelled for one relative step: prepend the process cwd when the path is
not absolute, then normalize ("" and "." segments dropped, ".." pops one
segment, popping past the root is ignored). -/

/-- Normalization core: left fold over segments with a reversed stack. -/
def collapseSegs : List (List Char) → List (List Char) → List (List Char)
  | acc, [] => acc.reverse
  | acc, seg :: rest =>
      if seg.isEmpty || seg = ['.'] then collapseSegs acc rest
      else if seg = ['.', '.'] then collapseSegs (acc.drop 1) rest
      else collapseSegs (seg :: acc) rest

/-- Interleave '/' between segments. -/
def joinSegs : List (List Char) → List Char
  | [] => []
  | [g] => g
  | g :: rest => g ++ '/' :: joinSegs rest

/-- POSIX `path.resolve(p)` with explicit process cwd. -/
def nodeResolve (cwd p : String) : String :=
  let full := if strStartsWith p "/" then p else cwd ++ "/" ++ p
  String.mk ('/' :: joinSegs (collapseSegs [] (splitOnSep '/' full.data)))

/-- Embeds `isUnderDir(p, root)` from server.js:
`abs === r || abs.startsWith(r + path.sep)`. -/
def isUnderDir (cwd p root : String) : Bool :=
  let abs := nodeResolve cwd p
  let r := nodeResolve cwd root
  strEq abs r || strStartsWith abs (r ++ "/")

/-! ## Backup import (server.js, app.post("/setup/import"))

Control flow of the handler, identical in both variants:
1. precondition: STATE_DIR and WORKSPACE_DIR both under "/data", else 400
   with no other work;
2. stop the gateway when running (SIGTERM, 750ms, handle cleared);
3. read the whole body (reject → catch → 500); empty body → 400;
4. write the temp file, `tar.x` with the `looksSafeTarPath` filter
   (throw → catch → 500);
5. remove the temp file; when configured, `await restartGateway()`;
   then 200.
The body read, the extraction and the restart are environment oracles. -/

inductive ImpAction where
  | stopGateway
  | readBody
  | writeTemp
  | extract
  | removeTemp
  | restartGateway
deriving Repr, DecidableEq

structure ImportEnv where
  cwd : String
  stateDir : String
  workspaceDir : String
  gatewayRunning : Bool
  configured : Bool
  /-- readBodyBuffer outcome: error (too large / stream error) or length. -/
  bodyRead : Except String Nat
  /-- tar.x outcome after the per-entry filter. -/
  extractResult : Except String Unit
  /-- restartGateway outcome on the success path. -/
  restartResult : Except String Unit
deriving Repr

structure ImportOutcome where
  status : Nat
  actions : List ImpAction
  gatewayRunningAfter : Bool
deriving Repr, DecidableEq

/-- Embeds the `/setup/import` handler. -/
def importHandler (e : ImportEnv) : ImportOutcome :=
  if (isUnderDir e.cwd e.stateDir "/data"
      && isUnderDir e.cwd e.workspaceDir "/data") = false then
    { status := 400, actions := [], gatewayRunningAfter := e.gatewayRunning }
  else
    let stopActs : List ImpAction :=
      if e.gatewayRunning then [.stopGateway] else []
    match e.bodyRead with
    | .error _ =>
        { status := 500, actions := stopActs ++ [.readBody],
          gatewayRunningAfter := false }
    | .ok n =>
        if n = 0 then
          { status := 400, actions := stopActs ++ [.readBody],
            gatewayRunningAfter := false }
        else
          match e.extractResult with
          | .error _ =>
              { status := 500,
                actions := stopActs ++ [.readBody, .writeTemp, .extract],
                gatewayRunningAfter := false }
          | .ok _ =>
              if e.configured then
                match e.restartResult with
                | .ok _ =>
                    { status := 200,
                      actions := stopActs ++
                        [.readBody, .writeTemp, .extract, .removeTemp,
                         .restartGateway],
                      gatewayRunningAfter := true }
                | .error _ =>
                    { status := 500,
                      actions := stopActs ++
                        [.readBody, .writeTemp, .extract, .removeTemp,
                         .restartGateway],
                      gatewayRunningAfter := true }
              else
                { status := 200,
                  actions := stopActs ++
                    [.readBody, .writeTemp, .extract, .removeTemp],
                  gatewayRunningAfter := false }

/-! ## Administration route table (server.js variant 1, registration order)

Express matches `app.get`/`app.post` routes by exact path (per method) in
registration order; anything unmatched reaches the final `app.use`
catch-all, which proxies to the gateway (or redirects to /setup when not
configured) without the setup auth gate. -/

structure RouteEntry where
  method : String
  routePath : String
  usesSetupAuth : Bool
deriving Repr, DecidableEq

/-- The registered wrapper routes, in source order, each recording whether
`requireSetupAuth` is in its middleware chain. -/
def registeredRoutes : List RouteEntry :=
  [⟨"GET", "/health", false⟩,
   ⟨"GET", "/setup/healthz", false⟩,
   ⟨"GET", "/setup/app.js", true⟩,
   ⟨"GET", "/setup", true⟩,
   ⟨"GET", "/setup/api/status", true⟩,
   ⟨"POST", "/setup/api/run", true⟩,
   ⟨"GET", "/setup/api/debug", true⟩,
   ⟨"POST", "/setup/api/console/run", true⟩,
   ⟨"GET", "/setup/api/health", true⟩,
   ⟨"POST", "/setup/api/health/fix-all", true⟩,
   ⟨"GET", "/setup/api/config/raw", true⟩,
   ⟨"POST", "/setup/api/config/raw", true⟩,
   ⟨"POST", "/setup/api/pairing/approve", true⟩,
   ⟨"GET", "/setup/api/pairing/pending", true⟩,
   ⟨"POST", "/setup/api/pairing/approve-all", true⟩,
   ⟨"POST", "/setup/api/reset", true⟩,
   ⟨"GET", "/setup/export", true⟩,
   ⟨"POST", "/setup/import", true⟩]

/-- The final `app.use` catch-all proxy middleware (no setup auth). -/
def catchAllProxy : RouteEntry := ⟨"USE", "", false⟩

/-- First matching registered route, else the catch-all proxy. -/
def dispatchRoute (method path : String) : RouteEntry :=
  (registeredRoutes.find?
    (fun r => strEq r.method method && strEq r.routePath path)).getD
    catchAllProxy

/-- Whether a request path is under the administration/setup root. -/
def underSetupRoot (path : String) : Bool := strStartsWith path "/setup"

/-! ## Secret redaction (server.js, SECRET_PATTERNS / redactSecrets)

`redactSecrets(text)` folds an ordered list of global regexes over the
text.  Patterns with two capture groups keep the first (context) group and
replace the second with "[REDACTED]"; single-group patterns replace the
whole match.  The regexes are embedded with a small greedy backtracking
matcher: alternatives are produced greedily (longest continuation first),
matching JS regex priority for these patterns. -/

/-- JS `\s` (ASCII part; the patterns are only applied to command output). -/
def jsWhitespace (c : Char) : Bool :=
  c = ' ' || c = '\t' || c = '\n' || c = '\r' || c = '\x0b' || c = '\x0c'

/-- character class [A-Za-z0-9_-]. -/
def clsAlnumDash (c : Char) : Bool :=
  c.isAlpha || c.isDigit || c = '_' || c = '-'

/-- character class [A-Za-z0-9]. -/
def clsAlnum (c : Char) : Bool := c.isAlpha || c.isDigit

/-- character class [A-Za-z0-9_]. -/
def clsAlnumUnderscore (c : Char) : Bool :=
  c.isAlpha || c.isDigit || c = '_'

/-- character class [A-Za-z0-9-]. -/
def clsAlnumHyphen (c : Char) : Bool := c.isAlpha || c.isDigit || c = '-'

/-- character class [A-Z0-9]. -/
def clsUpperDigit (c : Char) : Bool := ('A' ≤ c && c ≤ 'Z') || c.isDigit

/-- character class [A-Za-z0-9+/]. -/
def clsBase64 (c : Char) : Bool :=
  c.isAlpha || c.isDigit || c = '+' || c = '/'

/-- character class [^\s"'] from the password pattern. -/
def clsNotWsQuote (c : Char) : Bool :=
  !(jsWhitespace c) && c ≠ '"' && c ≠ '\''

/-- character class [A-Z ] from the private-key pattern. -/
def clsUpperOrSpace (c : Char) : Bool := ('A' ≤ c && c ≤ 'Z') || c = ' '

/-- character class ["'] (the optional quotes in the generic patterns). -/
def clsQuote (c : Char) : Bool := c = '"' || c = '\''

/-- character class [:=]. -/
def clsColonEq (c : Char) : Bool := c = ':' || c = '='

/-- Embedded regex fragments: epsilon, character class, literal (and its
case-insensitive variant for the /gi Bearer pattern), sequencing, `?`,
`*`, and `{n}`. -/
inductive RE where
  | eps
  | cls (p : Char → Bool)
  | lit (s : String)
  | litCI (s : String)
  | seq (a b : RE)
  | opt (a : RE)
  | star (a : RE)
  | repExact (n : Nat) (a : RE)

def seqAll : List RE → RE
  | [] => .eps
  | [r] => r
  | r :: rest => .seq r (seqAll rest)

/-- `{n,}` (greedy). -/
def repAtLeast (n : Nat) (a : RE) : RE := .seq (.repExact n a) (.star a)

def optChain : Nat → RE → RE
  | 0, _ => .eps
  | k + 1, a => .seq (.opt a) (optChain k a)

/-- `{n,n+extra}` (greedy), as n required copies then `extra` optional. -/
def repRange (n extra : Nat) (a : RE) : RE :=
  .seq (.repExact n a) (optChain extra a)

/-- Backtracking matcher: all suffixes remaining after a match of `re` at
the head of `cs`, in greedy priority order.  `fuel` bounds the unfolding
depth; every entry point supplies more fuel than any pattern needs. -/
def reMatch : Nat → RE → List Char → List (List Char)
  | 0, _, _ => []
  | fuel + 1, re, cs =>
      match re with
      | .eps => [cs]
      | .cls p =>
          match cs with
          | [] => []
          | c :: rest => if p c then [rest] else []
      | .lit s =>
          if s.data.isPrefixOf cs then [cs.drop s.data.length] else []
      | .litCI s =>
          if (cs.take s.data.length).map Char.toLower =
              s.data.map Char.toLower
          then [cs.drop s.data.length] else []
      | .seq a b =>
          ((reMatch fuel a cs).map (fun r => reMatch fuel b r)).flatten
      | .opt a => reMatch fuel a cs ++ [cs]
      | .star a =>
          (((reMatch fuel a cs).filter (fun r => r.length < cs.length)).map
            (fun r => reMatch fuel (.star a) r)).flatten ++ [cs]
      | .repExact 0 _ => [cs]
      | .repExact (n + 1) a =>
          ((reMatch fuel a cs).map
            (fun r => reMatch fuel (.repExact n a) r)).flatten

/-- One SECRET_PATTERNS entry: `ctx` is the context capture group kept by
the replacement callback (absent for single-group patterns), `sec` is the
replaced part. -/
structure SecretRule where
  ctx : Option RE
  sec : RE

def matchFuel (cs : List Char) : Nat := cs.length + 200

def firstSecSplit (fuel : Nat) (sec : RE) (origLen : Nat) :
    List (List Char) → Option (Nat × List Char)
  | [] => none
  | r1 :: rest =>
      match reMatch fuel sec r1 with
      | r2 :: _ => some (origLen - r1.length, r2)
      | [] => firstSecSplit fuel sec origLen rest

/-- Try a rule anchored at the current position: on success, the length of
the context group and the suffix after the whole match. -/
def tryRuleAt (rule : SecretRule) (cs : List Char) :
    Option (Nat × List Char) :=
  let fuel := matchFuel cs
  match rule.ctx with
  | none =>
      match reMatch fuel rule.sec cs with
      | r :: _ => some (0, r)
      | [] => none
  | some c => firstSecSplit fuel rule.sec cs.length (reMatch fuel c cs)

def redactedMark : List Char := "[REDACTED]".data

/-- Global replacement for one pattern: leftmost matches, each replaced by
context ++ "[REDACTED]", scanning resumes after the match (all the
patterns consume at least one character per match). -/
def redactRun (rule : SecretRule) : Nat → List Char → List Char
  | 0, cs => cs
  | fuel + 1, cs =>
      match tryRuleAt rule cs with
      | some (ctxLen, rest) =>
          cs.take ctxLen ++ redactedMark ++ redactRun rule fuel rest
      | none =>
          match cs with
          | [] => []
          | c :: rest => c :: redactRun rule fuel rest

/-- The SECRET_PATTERNS array, in source order. -/
def SECRET_PATTERNS : List SecretRule :=
  [⟨none, .seq (.lit "sk-") (repAtLeast 10 (.cls clsAlnumDash))⟩,
   ⟨none, .seq (.lit "sk-proj-") (repAtLeast 10 (.cls clsAlnumDash))⟩,
   ⟨none, .seq (.lit "sk-ant-") (repAtLeast 10 (.cls clsAlnumDash))⟩,
   ⟨none, .seq (.lit "ghp_") (repAtLeast 36 (.cls clsAlnum))⟩,
   ⟨none, .seq (.lit "gho_") (repAtLeast 10 (.cls clsAlnumUnderscore))⟩,
   ⟨none, .seq (.lit "ghs_") (repAtLeast 36 (.cls clsAlnum))⟩,
   ⟨none, .seq (.lit "ghu_") (repAtLeast 36 (.cls clsAlnum))⟩,
   ⟨none, .seq (.lit "github_pat_")
      (repAtLeast 22 (.cls clsAlnumUnderscore))⟩,
   ⟨none, seqAll [.lit "xox",
      .cls (fun c => c = 'b' || c = 'a' || c = 'p' || c = 'r' || c = 's'),
      .lit "-", repAtLeast 10 (.cls clsAlnumHyphen)]⟩,
   ⟨none, .seq (.lit "xapp-") (repAtLeast 10 (.cls clsAlnumHyphen))⟩,
   ⟨none, seqAll [.lit "AA", repAtLeast 10 (.cls clsAlnumDash),
      .lit ":", repAtLeast 10 (.cls (fun c => !(jsWhitespace c)))]⟩,
   ⟨none, seqAll [repRange 8 4 (.cls Char.isDigit), .lit ":",
      repAtLeast 35 (.cls clsAlnumDash)]⟩,
   ⟨none, seqAll [.repExact 24 (.cls clsAlnumDash), .lit ".",
      .repExact 6 (.cls clsAlnumDash), .lit ".",
      repAtLeast 27 (.cls clsAlnumDash)]⟩,
   ⟨none, .seq (.lit "AKIA") (.repExact 16 (.cls clsUpperDigit))⟩,
   ⟨none, .seq (.lit "ABIA") (.repExact 16 (.cls clsUpperDigit))⟩,
   ⟨none, .seq (.lit "ACCA") (.repExact 16 (.cls clsUpperDigit))⟩,
   ⟨none, .seq (.lit "AIza") (.repExact 35 (.cls clsAlnumDash))⟩,
   ⟨none, .seq (.repExact 86 (.cls clsBase64)) (.lit "==")⟩,
   ⟨none, seqAll [.lit "eyJ", repAtLeast 10 (.cls clsAlnumDash),
      .lit ".", repAtLeast 10 (.cls clsAlnumDash),
      .lit ".", repAtLeast 10 (.cls clsAlnumDash)]⟩,
   ⟨some (seqAll [.cls (fun c => c = 'A' || c = 'a'), .lit "pi",
      .opt (.cls (fun c => c = '_' || c = '-')),
      .cls (fun c => c = 'K' || c = 'k'), .lit "ey",
      .opt (.cls clsQuote), .star (.cls jsWhitespace), .cls clsColonEq,
      .star (.cls jsWhitespace), .opt (.cls clsQuote)]),
    repAtLeast 20 (.cls clsAlnumDash)⟩,
   ⟨some (seqAll [.cls (fun c => c = 'S' || c = 's'), .lit "ecret",
      .opt (.cls clsQuote), .star (.cls jsWhitespace), .cls clsColonEq,
      .star (.cls jsWhitespace), .opt (.cls clsQuote)]),
    repAtLeast 20 (.cls clsAlnumDash)⟩,
   ⟨some (seqAll [.cls (fun c => c = 'T' || c = 't'), .lit "oken",
      .opt (.cls clsQuote), .star (.cls jsWhitespace), .cls clsColonEq,
      .star (.cls jsWhitespace), .opt (.cls clsQuote)]),
    repAtLeast 20 (.cls clsAlnumDash)⟩,
   ⟨some (seqAll [.cls (fun c => c = 'P' || c = 'p'), .lit "assword",
      .opt (.cls clsQuote), .star (.cls jsWhitespace), .cls clsColonEq,
      .star (.cls jsWhitespace), .opt (.cls clsQuote)]),
    repAtLeast 8 (.cls clsNotWsQuote)⟩,
   ⟨none, seqAll [.lit "-----BEGIN ", repAtLeast 1 (.cls clsUpperOrSpace),
      .lit "PRIVATE KEY-----"]⟩,
   ⟨none, seqAll [.litCI "Bearer", repAtLeast 1 (.cls jsWhitespace),
      repAtLeast 20 (.cls clsAlnumDash)]⟩]

/-- Embeds `redactSecrets(text)`: unchanged when falsy (empty), otherwise
every pattern applied globally in order. -/
def redactSecrets (text : String) : String :=
  if text.isEmpty then text
  else
    String.mk (SECRET_PATTERNS.foldl
      (fun cs rule => redactRun rule (cs.length + 1) cs) text.data)

/-! ## Subprocess-output response bodies

Response construction of the endpoints that return `runCmd` output. -/

/-- Result of `runCmd` (exit code and combined stdout+stderr). -/
structure CmdResult where
  code : Nat
  output : String
deriving Repr, DecidableEq

/-- `res.status(r.code === 0 ? 200 : 500)`. -/
def subprocessStatus (r : CmdResult) : Nat := if r.code == 0 then 200 else 500

/-- Embeds the subprocess-backed branches of
`app.post("/setup/api/console/run")`: each returns
`{ok: r.code === 0, output: redactSecrets(r.output)}`.  `none` for command
names that are not subprocess-backed here. -/
def consoleCmdResponse (cmd : String) (r : CmdResult) :
    Option (Nat × Bool × String) :=
  if cmd = "openclaw.version" then
    some (subprocessStatus r, r.code == 0, redactSecrets r.output)
  else if cmd = "openclaw.status" then
    some (subprocessStatus r, r.code == 0, redactSecrets r.output)
  else if cmd = "openclaw.health" then
    some (subprocessStatus r, r.code == 0, redactSecrets r.output)
  else if cmd = "openclaw.doctor" then
    some (subprocessStatus r, r.code == 0, redactSecrets r.output)
  else if cmd = "openclaw.doctor.fix" then
    some (subprocessStatus r, r.code == 0, redactSecrets r.output)
  else if cmd = "openclaw.security.audit" then
    some (subprocessStatus r, r.code == 0, redactSecrets r.output)
  else if cmd = "openclaw.logs.tail" then
    some (subprocessStatus r, r.code == 0, redactSecrets r.output)
  else if cmd = "openclaw.config.get" then
    some (subprocessStatus r, r.code == 0, redactSecrets r.output)
  else none

/-- Embeds the final response body of `app.post("/setup/api/run")`:
`output: onboard.output + extra` — no redaction call. -/
def runEndpointResponseOutput (onboardOutput extra : String) : String :=
  onboardOutput ++ extra

/-- Embeds the response of `app.post("/setup/api/pairing/approve")`:
`{ok: r.code === 0, output: r.output}` — no redaction call. -/
def pairingApproveResponse (r : CmdResult) : Nat × Bool × String :=
  (subprocessStatus r, r.code == 0, r.output)

/-- Embeds the per-request entry in the `/setup/api/pairing/approve-all`
results array: `{..., output: r.output}` — no redaction call. -/
def pairingApproveAllEntryOutput (r : CmdResult) : String := r.output

/-- Embeds the body of `app.get("/setup/api/health")`:
`const output = redactSecrets(r.output)`. -/
def healthEndpointOutput (r : CmdResult) : String := redactSecrets r.output

/-! ## Auxiliary definitions used by the theorems -/

/-- Invariant of the supervisor state while one start attempt window is
open (no completion turn yet): either nothing was spawned, or exactly the
first attempt (id 0) was spawned and is still registered in
`gatewayStarting`. -/
def SupInv (s : SupState) : Prop :=
  s.configured = true ∧
  ((s.gatewayStarting = none ∧ s.spawnCount = 0 ∧ s.gatewayProc = false ∧
      s.nextAttemptId = 0) ∨
   (s.gatewayStarting = some 0 ∧ s.spawnCount = 1 ∧ s.nextAttemptId = 1))

/-- The full probing order of `findWritableStateDir`, env candidate first. -/
def orderedStateDirCandidates (e : DirProbeEnv) : List String :=
  (match e.envStateDir with | some d => [d] | none => []) ++
    stateDirCandidates e

/-- A probe environment in which only the `process.cwd()/.openclaw`
candidate is usable. -/
def cwdOnlyProbeEnv : DirProbeEnv :=
  { envStateDir := none,
    usable := fun d => d == "/cwd/.openclaw",
    homedir := "/home/user", tmpdir := "/tmp", cwd := "/cwd", pid := 42,
    fallbackMkdirOk := true }

/-- A string an openclaw subprocess can plausibly print: it matches the
first SECRET_PATTERNS rule (an OpenAI-style key). -/
def leakedSecretSample : String := "sk-aaaaaaaaaa"

/-- Import environment whose directories are off the data volume. -/
def offVolumeImportEnv : ImportEnv :=
  { cwd := "/", stateDir := "/tmp/state", workspaceDir := "/data/ws",
    gatewayRunning := true, configured := true,
    bodyRead := .ok 5, extractResult := .ok (), restartResult := .ok () }

/-- Import environment under the data volume whose body turns out empty. -/
def emptyBodyImportEnv : ImportEnv :=
  { cwd := "/", stateDir := "/data/.openclaw",
    workspaceDir := "/data/.openclaw/workspace",
    gatewayRunning := true, configured := true,
    bodyRead := .ok 0, extractResult := .ok (), restartResult := .ok () }

end OpenClawWrapper

namespace OpenClawWrapper

/-! # Theorems -/

lemma charsAfterFirstColon_append {u : List Char} (p : List Char)
    (hu : (':' : Char) ∉ u) :
    charsAfterFirstColon (u ++ ':' :: p) = p := by
  induction u with
  | nil => simp [charsAfterFirstColon]
  | cons c rest ih =>
      have hc : c ≠ ':' := fun h => hu (h ▸ List.mem_cons_self c rest)
      have hrest : (':' : Char) ∉ rest := fun h => hu (List.mem_cons_of_mem c h)
      simp [charsAfterFirstColon, hc, ih hrest]

lemma charsAfterFirstColon_no_colon {u : List Char}
    (hu : (':' : Char) ∉ u) :
    charsAfterFirstColon u = [] := by
  induction u with
  | nil => rfl
  | cons c rest ih =>
      have hc : c ≠ ':' := fun h => hu (h ▸ List.mem_cons_self c rest)
      have hrest : (':' : Char) ∉ rest := fun h => hu (List.mem_cons_of_mem c h)
      simp [charsAfterFirstColon, hc, ih hrest]

lemma basicAuthPassword_concat (u p : String)
    (hu : (':' : Char) ∉ u.data) :
    basicAuthPassword (u ++ ":" ++ p) = p := by
  have hdata : (u ++ ":" ++ p).data = u.data ++ ':' :: p.data := by
    rw [String.data_append, String.data_append]
    simp
  unfold basicAuthPassword
  rw [hdata, charsAfterFirstColon_append p.data hu]

/-- C1: every archive entry path that starts with "/", contains a ".."
segment, or matches the drive-letter pattern fails `looksSafeTarPath`, so
the import extraction filter drops it and it is never written to disk,
while the safe entries of the same archive are still extracted. -/
theorem unsafe_tar_entries_never_extracted (p : String) (entries : List String)
    (hbad : strStartsWith p "/" = true ∨
      (splitOnSep '/' p.data).contains ['.', '.'] = true ∨
      isDriveLetterPath p = true) :
    looksSafeTarPath p = false ∧ p ∉ tarExtractedEntries entries ∧
    ∀ q ∈ entries, looksSafeTarPath q = true →
      q ∈ tarExtractedEntries entries := by
  have hfalse : looksSafeTarPath p = false := by
    unfold looksSafeTarPath
    split_ifs with h1 h2 h3 h4 <;>
      first
        | rfl
        | (rcases hbad with hb | hb | hb <;> simp_all)
  refine ⟨hfalse, ?_, ?_⟩
  · intro hmem
    rw [tarExtractedEntries, List.mem_filter, hfalse] at hmem
    exact absurd hmem.2 (by simp)
  · intro q hq hqt
    exact List.mem_filter.mpr ⟨hq, hqt⟩

/-- C1 witness: the absolute entry "/abs" of a two-entry archive is
dropped while the safe entry "ok.txt" is still extracted. -/
theorem unsafe_tar_entries_never_extracted_witness :
    (strStartsWith "/abs" "/" = true ∨
      (splitOnSep '/' "/abs".data).contains ['.', '.'] = true ∨
      isDriveLetterPath "/abs" = true) ∧
    (looksSafeTarPath "/abs" = false ∧
     "/abs" ∉ tarExtractedEntries ["/abs", "ok.txt"] ∧
     ∀ q ∈ ["/abs", "ok.txt"], looksSafeTarPath q = true →
       q ∈ tarExtractedEntries ["/abs", "ok.txt"]) :=
  ⟨Or.inl (by decide),
   unsafe_tar_entries_never_extracted "/abs" ["/abs", "ok.txt"]
     (Or.inl (by decide))⟩

/-- C9: the Basic-auth check ignores the username: the accepted credential
is everything after the first ':' of the decoded authorization value, so
any username paired with the correct password authorizes (from a fresh
client state), and a decoded value containing no ':' is treated as the
empty password. -/
theorem basic_auth_ignores_username (u p pw : String) (now : Nat)
    (hu : (':' : Char) ∉ u.data) :
    basicAuthPassword (u ++ ":" ++ p) = p ∧
    (requireSetupAuth now (some pw) (some (u ++ ":" ++ pw)) freshClient).1 =
      SetupAuthResult.authorized ∧
    ∀ d : String, (':' : Char) ∉ d.data → basicAuthPassword d = "" := by
  refine ⟨basicAuthPassword_concat u p hu, ?_, ?_⟩
  · have hc : basicAuthPassword (u ++ ":" ++ pw) = pw :=
      basicAuthPassword_concat u pw hu
    simp [requireSetupAuth, freshClient, checkRateLimit,
      checkRequestRateLimit, maxRequestsPerMinute, hc, recordAuthSuccess]
  · intro d hd
    unfold basicAuthPassword
    rw [charsAfterFirstColon_no_colon hd]

/-- C9 witness: username "admin" with password "pw" authorizes, and the
colon-free credential "pw" yields the empty password. -/
theorem basic_auth_ignores_username_witness :
    ((':' : Char) ∉ "admin".data) ∧
    (basicAuthPassword ("admin" ++ ":" ++ "pw") = "pw" ∧
     (requireSetupAuth 0 (some "pw") (some ("admin" ++ ":" ++ "pw"))
        freshClient).1 = SetupAuthResult.authorized ∧
     ∀ d : String, (':' : Char) ∉ d.data → basicAuthPassword d = "") :=
  ⟨by decide,
   basic_auth_ignores_username "admin" "pw" "pw" 0 (by decide)⟩

lemma supInv_spawn_le {s : SupState} (h : SupInv s) : s.spawnCount ≤ 1 := by
  rcases h with ⟨-, ⟨-, h2, -, -⟩ | ⟨-, h2, -⟩⟩ <;> omega

lemma supInv_call {s : SupState} (h : SupInv s) :
    SupInv (ensureCallTurn s).2 ∧
    ((ensureCallTurn s).1 = EnsureCallRes.alreadyRunning ∨
     (ensureCallTurn s).1 = EnsureCallRes.awaits 0) ∧
    s.spawnCount ≤ (ensureCallTurn s).2.spawnCount ∧
    (ensureCallTurn s).2.spawnCount = 1 := by
  obtain ⟨hc, hcase⟩ := h
  rcases hcase with ⟨h1, h2, h3, h4⟩ | ⟨h1, h2, h3⟩
  · simp [ensureCallTurn, hc, h1, h2, h3, h4, SupInv]
  · by_cases hp : s.gatewayProc
    · simp [ensureCallTurn, hc, hp, SupInv, h1, h2, h3]
    · simp [ensureCallTurn, hc, hp, h1, SupInv, h2, h3]

lemma supInv_exit {s : SupState} (h : SupInv s) : SupInv (procExitTurn s) := by
  obtain ⟨hc, hcase⟩ := h
  rcases hcase with ⟨h1, h2, h3, h4⟩ | ⟨h1, h2, h3⟩
  · exact ⟨hc, Or.inl ⟨h1, h2, rfl, h4⟩⟩
  · exact ⟨hc, Or.inr ⟨h1, h2, h3⟩⟩

lemma runSupEvents_inv (evs : List SupEvent) (s : SupState) (h : SupInv s) :
    SupInv (runSupEvents evs s).1 ∧
    s.spawnCount ≤ (runSupEvents evs s).1.spawnCount ∧
    (∀ r ∈ (runSupEvents evs s).2,
       r = EnsureCallRes.alreadyRunning ∨ r = EnsureCallRes.awaits 0) ∧
    (SupEvent.call ∈ evs → (runSupEvents evs s).1.spawnCount = 1) := by
  induction evs generalizing s with
  | nil =>
      refine ⟨h, le_refl _, ?_, ?_⟩ <;> simp [runSupEvents]
  | cons ev rest ih =>
      cases ev with
      | call =>
          obtain ⟨hinv, hres, hmono, hone⟩ := supInv_call h
          obtain ⟨ih1, ih2, ih3, _⟩ := ih (ensureCallTurn s).2 hinv
          have hfin :
              (runSupEvents rest (ensureCallTurn s).2).1.spawnCount = 1 := by
            have := supInv_spawn_le ih1
            omega
          refine ⟨?_, ?_, ?_, ?_⟩ <;> simp only [runSupEvents]
          · exact ih1
          · omega
          · intro r hr
            rcases List.mem_cons.mp hr with hr | hr
            · exact hr ▸ hres
            · exact ih3 r hr
          · intro _
            exact hfin
      | procExit =>
          obtain ⟨ih1, ih2, ih3, ih4⟩ := ih (procExitTurn s) (supInv_exit h)
          refine ⟨?_, ?_, ?_, ?_⟩ <;> simp only [runSupEvents]
          · exact ih1
          · simpa [procExitTurn] using ih2
          · exact ih3
          · intro hc
            exact ih4 (by simpa using hc)

/-- C2: for every interleaving of concurrent `ensureGatewayRunning()`
synchronous turns and child-exit callbacks, starting configured with no
process running and no start in flight, at most one child spawn occurs —
exactly one as soon as any call occurred — every caller that waits joins
the same start attempt (id 0), hence observes that single attempt's
success/failure outcome, and the completion turn clears `gatewayStarting`
unconditionally (on success and on failure alike). -/
theorem single_spawn_shared_outcome (evs : List SupEvent) :
    (runSupEvents evs supInit).1.spawnCount ≤ 1 ∧
    (SupEvent.call ∈ evs → (runSupEvents evs supInit).1.spawnCount = 1) ∧
    (∀ r ∈ (runSupEvents evs supInit).2,
       r = EnsureCallRes.alreadyRunning ∨ r = EnsureCallRes.awaits 0) ∧
    (∀ (ok : Bool) (s : SupState),
       (startCompleteTurn ok s).gatewayStarting = none) := by
  have hinit : SupInv supInit := by simp [SupInv, supInit]
  obtain ⟨h1, _, h3, h4⟩ := runSupEvents_inv evs supInit hinit
  exact ⟨supInv_spawn_le h1, h4, h3, fun _ _ => rfl⟩

/-- C2 witness: two concurrent calls with an intervening crash callback
spawn exactly once, both await attempt 0, and completion with failure
clears the in-flight reference. -/
theorem single_spawn_shared_outcome_witness :
    SupEvent.call ∈ [SupEvent.call, SupEvent.procExit, SupEvent.call] ∧
    (runSupEvents [SupEvent.call, SupEvent.procExit, SupEvent.call]
        supInit).1.spawnCount = 1 ∧
    (startCompleteTurn false
      (runSupEvents [SupEvent.call, SupEvent.procExit, SupEvent.call]
        supInit).1).gatewayStarting = none :=
  ⟨by decide,
   (single_spawn_shared_outcome _).2.1 (by decide),
   (single_spawn_shared_outcome
      [SupEvent.call, SupEvent.procExit, SupEvent.call]).2.2.2 false _⟩

lemma recordAuthFailure_fresh (t : Nat) :
    recordAuthFailure t none = ⟨1, t, none⟩ := by
  simp only [recordAuthFailure, Option.getD_none]
  split <;> simp [maxAuthAttempts]

lemma recordAuthFailure_below (t k last : Nat) (hk : k + 1 < maxAuthAttempts)
    (hw : t - last ≤ authWindowMs) :
    recordAuthFailure t (some ⟨k, last, none⟩) = ⟨k + 1, t, none⟩ := by
  have hw2 : ¬(t - last > authWindowMs) := by omega
  have hk2 : ¬(k + 1 ≥ maxAuthAttempts) := by omega
  simp [recordAuthFailure, hw2, hk2]

lemma recordAuthFailure_lock (t last : Nat) (hw : t - last ≤ authWindowMs) :
    recordAuthFailure t (some ⟨4, last, none⟩) =
      ⟨5, t, some (t + authLockoutMs)⟩ := by
  have hw2 : ¬(t - last > authWindowMs) := by omega
  have hk2 : (4 : Nat) + 1 ≥ maxAuthAttempts := by simp [maxAuthAttempts]
  simp [recordAuthFailure, hw2, hk2]

lemma requireSetupAuth_locked (now : Nat) (sp cred : Option String)
    (cs : ClientState) (retry : Nat)
    (ha : checkRateLimit now cs.auth = some retry) :
    requireSetupAuth now sp cred cs = (.authRateLimited retry, cs) := by
  unfold requireSetupAuth
  rw [ha]

lemma requireSetupAuth_pass (now : Nat) (pw cred : String)
    (a : Option AuthAttemptState) (ha : checkRateLimit now a = none)
    (hc : basicAuthPassword cred = pw) :
    requireSetupAuth now (some pw) (some cred) ⟨a, none⟩ =
      (.authorized, ⟨none, some ⟨[now], now⟩⟩) := by
  unfold requireSetupAuth
  rw [ha]
  simp [checkRequestRateLimit, maxRequestsPerMinute, hc, recordAuthSuccess]

/-- C3: from a clean record, five consecutive failed authentications with
consecutive gaps inside the 5-minute window set `lockedUntil` exactly at
the fifth failure (not before); while the 15-minute lockout has not
elapsed, the next administration request — even with the correct
password — is answered 429 (auth rate limited) with the remaining lockout
as Retry-After; once the lockout has elapsed the lockout check passes
again; and one successful authentication before the threshold deletes the
client's auth-failure entry entirely. -/
theorem lockout_after_five_failures
    (pw d : String) (t1 t2 t3 t4 t5 t t6 : Nat)
    (hd : basicAuthPassword d = pw)
    (h12 : t2 - t1 ≤ authWindowMs) (h23 : t3 - t2 ≤ authWindowMs)
    (h34 : t4 - t3 ≤ authWindowMs) (h45 : t5 - t4 ≤ authWindowMs)
    (ht : t < t5 + authLockoutMs) (ht6 : t5 + authLockoutMs ≤ t6) :
    recordAuthFailure t1 none = ⟨1, t1, none⟩ ∧
    recordAuthFailure t2 (some ⟨1, t1, none⟩) = ⟨2, t2, none⟩ ∧
    recordAuthFailure t3 (some ⟨2, t2, none⟩) = ⟨3, t3, none⟩ ∧
    recordAuthFailure t4 (some ⟨3, t3, none⟩) = ⟨4, t4, none⟩ ∧
    recordAuthFailure t5 (some ⟨4, t4, none⟩) =
      ⟨5, t5, some (t5 + authLockoutMs)⟩ ∧
    requireSetupAuth t (some pw) (some d)
        ⟨some ⟨5, t5, some (t5 + authLockoutMs)⟩, none⟩ =
      (.authRateLimited (t5 + authLockoutMs - t),
       ⟨some ⟨5, t5, some (t5 + authLockoutMs)⟩, none⟩) ∧
    checkRateLimit t6 (some ⟨5, t5, some (t5 + authLockoutMs)⟩) = none ∧
    requireSetupAuth t (some pw) (some d) ⟨some ⟨4, t4, none⟩, none⟩ =
      (.authorized, ⟨none, some ⟨[t], t⟩⟩) := by
  have hl : checkRateLimit t (some ⟨5, t5, some (t5 + authLockoutMs)⟩) =
      some (t5 + authLockoutMs - t) := by
    simp [checkRateLimit, ht]
  refine ⟨recordAuthFailure_fresh t1,
    recordAuthFailure_below t2 1 t1 (by simp [maxAuthAttempts]) h12,
    recordAuthFailure_below t3 2 t2 (by simp [maxAuthAttempts]) h23,
    recordAuthFailure_below t4 3 t3 (by simp [maxAuthAttempts]) h34,
    recordAuthFailure_lock t5 t4 h45, ?_, ?_, ?_⟩
  · exact requireSetupAuth_locked t (some pw) (some d) _ _ hl
  · simp [checkRateLimit]
    omega
  · exact requireSetupAuth_pass t pw d _ (by simp [checkRateLimit]) hd

/-- C3 witness: failures at times 0..4 lock the client out until 900004,
the locked request at time 5 with the correct password is refused, and a
success from four failures clears the entry. -/
theorem lockout_after_five_failures_witness :
    recordAuthFailure 4 (some ⟨4, 3, none⟩) =
      ⟨5, 4, some (4 + authLockoutMs)⟩ ∧
    requireSetupAuth 5 (some "s") (some "u:s")
        ⟨some ⟨5, 4, some (4 + authLockoutMs)⟩, none⟩ =
      (.authRateLimited (4 + authLockoutMs - 5),
       ⟨some ⟨5, 4, some (4 + authLockoutMs)⟩, none⟩) ∧
    requireSetupAuth 5 (some "s") (some "u:s") ⟨some ⟨4, 3, none⟩, none⟩ =
      (.authorized, ⟨none, some ⟨[5], 5⟩⟩) := by
  have h := lockout_after_five_failures "s" "u:s" 0 1 2 3 4 5
    (4 + authLockoutMs) (by decide) (by decide) (by decide) (by decide)
    (by decide) (by decide) (by decide)
  exact ⟨h.2.2.2.2.1, h.2.2.2.2.2.1, h.2.2.2.2.2.2.2⟩

/-- C5 counterexample: the path "/setup/healthz" is under the
administration/setup prefix, yet the wrapper serves it through a handler
registered without `requireSetupAuth` — so not every path under the prefix
passes the rate-limit and Basic-auth gate. -/
theorem setup_healthz_served_without_auth_gate :
    underSetupRoot "/setup/healthz" = true ∧
    dispatchRoute "GET" "/setup/healthz" =
      { method := "GET", routePath := "/setup/healthz",
        usesSetupAuth := false } ∧
    (dispatchRoute "GET" "/setup/healthz").usesSetupAuth = false := by
  refine ⟨by decide, by decide, by decide⟩

/-- C5 amended: every registered administration route under the setup
prefix except GET /setup/healthz carries the rate-limit + Basic-auth gate
(`requireSetupAuth`); /setup/healthz is served unauthenticated, and any
other path under the prefix falls through to the catch-all proxy
middleware rather than a setup handler. -/
theorem setup_routes_auth_except_healthz (r : RouteEntry)
    (hr : r ∈ registeredRoutes)
    (hs : underSetupRoot r.routePath = true)
    (hz : r.routePath ≠ "/setup/healthz") :
    r.usesSetupAuth = true := by
  fin_cases hr <;> first | rfl | (exfalso; revert hs hz; decide)

/-- C5 amended witness: the import route is under the prefix, differs from
/setup/healthz, and indeed carries the auth gate. -/
theorem setup_routes_auth_except_healthz_witness :
    (RouteEntry.mk "POST" "/setup/import" true).usesSetupAuth = true :=
  setup_routes_auth_except_healthz ⟨"POST", "/setup/import", true⟩
    (by decide) (by decide) (by decide)

/-- C6: whenever the resolved state directory or workspace directory is
not rooted under /data, the import handler answers 400 having performed
none of the other import work: no gateway stop, no body read, no temp
file write, no extraction, no restart — the gateway state is untouched. -/
theorem import_refused_outside_data (e : ImportEnv)
    (h : (isUnderDir e.cwd e.stateDir "/data" &&
          isUnderDir e.cwd e.workspaceDir "/data") = false) :
    importHandler e =
      { status := 400, actions := [],
        gatewayRunningAfter := e.gatewayRunning } := by
  unfold importHandler
  rw [h]
  simp

/-- C6 witness: a state directory under /tmp makes import refuse with 400
and an empty action list even though the body and archive are fine. -/
theorem import_refused_outside_data_witness :
    importHandler offVolumeImportEnv =
      { status := 400, actions := [], gatewayRunningAfter := true } :=
  import_refused_outside_data offVolumeImportEnv (by decide)

/-- C7: when a gateway process is running, `restartGateway()` sends the
graceful termination signal, waits the fixed 750ms grace period, clears
the handle unconditionally (before the ensure step, whatever the readiness
oracle says), bumps `restartCount` by exactly one, and then calls
`ensureGatewayRunning()`; consequently a console/run request with
cmd="gateway.restart" that finds the gateway running and sees it become
ready again answers {ok:true} with `restartCount` incremented by 1. -/
theorem restart_running_gateway (s : GwState) (ready : Bool)
    (h : s.gatewayProc = true) :
    restartTeardown s =
      ({ gatewayProc := false, restartCount := s.restartCount + 1 },
       [.sigterm, .sleepGrace750, .clearHandle, .trackRestart]) ∧
    (restartGatewayModel true ready s).1.restartCount = s.restartCount + 1 ∧
    (restartGatewayModel true ready s).2.1 =
      [.sigterm, .sleepGrace750, .clearHandle, .trackRestart,
       .ensureRunningCall] ∧
    (ready = true →
      consoleGatewayRestart true ready s =
        ({ gatewayProc := true, restartCount := s.restartCount + 1 },
         200, true)) := by
  refine ⟨by simp [restartTeardown, h], ?_, ?_, ?_⟩
  · cases ready <;>
      simp [restartGatewayModel, restartTeardown, h, ensureRunningModel]
  · cases ready <;>
      simp [restartGatewayModel, restartTeardown, h, ensureRunningModel]
  · intro hr
    subst hr
    simp [consoleGatewayRestart, restartGatewayModel, restartTeardown, h,
      ensureRunningModel]

/-- C7 witness: restarting a running gateway with restartCount 0 that
becomes ready again answers 200/{ok:true} with restartCount 1. -/
theorem restart_running_gateway_witness :
    consoleGatewayRestart true true { gatewayProc := true, restartCount := 0 } =
      ({ gatewayProc := true, restartCount := 1 }, 200, true) :=
  (restart_running_gateway { gatewayProc := true, restartCount := 0 } true
    rfl).2.2.2 rfl

/-- C8 counterexample: with no operator override and only
`process.cwd()/.openclaw` usable, `findWritableStateDir` selects that cwd
candidate — a directory outside the fallback order claimed by the spec
(operator path, /data volume, home, temp, process-unique temp fallback). -/
theorem stateDir_cwd_candidate_selected :
    findWritableStateDir cwdOnlyProbeEnv = "/cwd/.openclaw" ∧
    findWritableStateDir cwdOnlyProbeEnv ≠ "/data/.openclaw" ∧
    findWritableStateDir cwdOnlyProbeEnv ≠ "/home/user/.openclaw" ∧
    findWritableStateDir cwdOnlyProbeEnv ≠ "/tmp/.openclaw" ∧
    findWritableStateDir cwdOnlyProbeEnv ≠ uniqueTmpFallback cwdOnlyProbeEnv
    := by
  refine ⟨by decide, by decide, by decide, by decide, by decide⟩

/-- C8 amended: the state directory is the first usable candidate in the
order: operator-declared path, /data/.openclaw, home, temp,
process.cwd()/.openclaw; when none is usable the process-unique temp
fallback is used, and when even its mkdir fails the /data candidate is
returned to fail later. -/
theorem stateDir_resolution_order (e : DirProbeEnv) :
    findWritableStateDir e =
      match (orderedStateDirCandidates e).find? e.usable with
      | some c => c
      | none =>
          if e.fallbackMkdirOk then uniqueTmpFallback e
          else "/data/.openclaw" := by
  unfold findWritableStateDir orderedStateDirCandidates
  cases henv : e.envStateDir with
  | none => simp
  | some d =>
      cases hd : e.usable d <;>
        simp [List.find?, hd]

/-- C10: once the data-volume precondition has passed, the import handler
stops the gateway (when one is running) before anything else; a failed
restore — empty body (400), body read failure (500) or extraction failure
(500) — performs no restart and leaves the gateway stopped within that
request; and the restart action occurs only on the success path with a
non-empty body and only when the product is configured. -/
theorem failed_import_leaves_gateway_stopped (e : ImportEnv)
    (hpre : (isUnderDir e.cwd e.stateDir "/data" &&
             isUnderDir e.cwd e.workspaceDir "/data") = true) :
    (e.gatewayRunning = true →
       (importHandler e).actions.head? = some ImpAction.stopGateway) ∧
    (e.bodyRead = .ok 0 →
       (importHandler e).status = 400 ∧
       ImpAction.restartGateway ∉ (importHandler e).actions ∧
       (importHandler e).gatewayRunningAfter = false) ∧
    (∀ msg, e.bodyRead = .error msg →
       (importHandler e).status = 500 ∧
       ImpAction.restartGateway ∉ (importHandler e).actions ∧
       (importHandler e).gatewayRunningAfter = false) ∧
    (∀ msg n, e.bodyRead = .ok n → n ≠ 0 → e.extractResult = .error msg →
       (importHandler e).status = 500 ∧
       ImpAction.restartGateway ∉ (importHandler e).actions ∧
       (importHandler e).gatewayRunningAfter = false) ∧
    (ImpAction.restartGateway ∈ (importHandler e).actions →
       e.configured = true ∧ e.extractResult = .ok () ∧
       ∃ n, e.bodyRead = .ok n ∧ n ≠ 0) := by
  rcases e with ⟨cwd, sd, wd, gr, cf, br, er, rr⟩
  simp only at hpre ⊢
  rcases br with msg | n
  · cases gr <;> simp [importHandler, hpre]
  · rcases Nat.eq_zero_or_pos n with hn | hn
    · subst hn
      cases gr <;> simp [importHandler, hpre]
    · have hn2 : ¬(n = 0) := by omega
      rcases er with m2 | u
      · cases gr <;> simp [importHandler, hpre, hn2]
      · cases u
        rcases rr with m3 | u3
        · cases gr <;> cases cf <;> simp [importHandler, hpre, hn2]
        · cases u3
          cases gr <;> cases cf <;> simp [importHandler, hpre, hn2]

/-- C10 witness: an import with both directories under /data and an empty
body answers 400, never restarts, and leaves the gateway stopped. -/
theorem failed_import_leaves_gateway_stopped_witness :
    (importHandler emptyBodyImportEnv).status = 400 ∧
    ImpAction.restartGateway ∉ (importHandler emptyBodyImportEnv).actions ∧
    (importHandler emptyBodyImportEnv).gatewayRunningAfter = false :=
  (failed_import_leaves_gateway_stopped emptyBodyImportEnv (by decide)).2.1
    rfl

/-- C4 counterexample: the pairing endpoints and the onboarding run
endpoint place subprocess output in the HTTP response verbatim, and the
redaction transform is not the identity on such output: on the sample
key the transform produces "[REDACTED]", so those endpoints return
unredacted subprocess output — the claim that no endpoint is exempted
fails. -/
theorem subprocess_output_reaches_response_unredacted :
    pairingApproveResponse { code := 0, output := leakedSecretSample } =
      (200, true, leakedSecretSample) ∧
    pairingApproveAllEntryOutput { code := 0, output := leakedSecretSample }
      = leakedSecretSample ∧
    runEndpointResponseOutput leakedSecretSample "" = leakedSecretSample ∧
    redactSecrets leakedSecretSample = "[REDACTED]" ∧
    redactSecrets leakedSecretSample ≠ leakedSecretSample := by
  refine ⟨by decide, by decide, by decide, by decide, by decide⟩

/-- C4 amended: the secret-redaction transform is applied to the
subprocess output of every allowlisted subprocess-backed console/run
command and to the health endpoint, but the onboarding run endpoint and
the pairing endpoints (approve, approve-all) return subprocess output
without redaction. -/
theorem redaction_selective_coverage (r : CmdResult) (o e cmd : String)
    (hc : cmd ∈ ["openclaw.version", "openclaw.status", "openclaw.health",
      "openclaw.doctor", "openclaw.doctor.fix", "openclaw.security.audit",
      "openclaw.logs.tail", "openclaw.config.get"]) :
    consoleCmdResponse cmd r =
      some (subprocessStatus r, r.code == 0, redactSecrets r.output) ∧
    healthEndpointOutput r = redactSecrets r.output ∧
    pairingApproveResponse r = (subprocessStatus r, r.code == 0, r.output) ∧
    pairingApproveAllEntryOutput r = r.output ∧
    runEndpointResponseOutput o e = o ++ e := by
  refine ⟨?_, rfl, rfl, rfl, rfl⟩
  fin_cases hc <;> simp [consoleCmdResponse]

/-- C4 amended witness: the version console command response carries the
redacted output. -/
theorem redaction_selective_coverage_witness :
    consoleCmdResponse "openclaw.version" { code := 0, output := "out" } =
      some (subprocessStatus { code := 0, output := "out" }, (0 : Nat) == 0,
        redactSecrets "out") :=
  (redaction_selective_coverage { code := 0, output := "out" } "" ""
    "openclaw.version" (by decide)).1

end OpenClawWrapper
